import Mathlib

/-!
Shallow embedding of the `quietpleasure/discovery` service-discovery client
(packages `discovery`, `consul`, `retryer`) and verification of its
specification.  Pure computations are translated to Lean functions; the
backend (Consul HTTP API, gRPC) is abstracted by passing its responses as
explicit arguments; channel blocking and `panic` are made explicit in result
types.
-/

/-- Go sentinel errors compare by identity, not by message: `errors.New` /
`fmt.Errorf` allocate distinct values even for equal message strings.  Each
constructor is one distinct Go error value; `backend` stands for an arbitrary
error returned by the consul client library, indexed so that distinct backend
errors stay distinct. -/
inductive GoErr where
  | errServicesNotFound
  | errNotFound
  | serviceConfigNotDefined
  | backend (code : Nat)
  deriving DecidableEq, Repr

/-- The message carried by each error value.  `consul.ErrServicesNotFound` is
`fmt.Errorf("no service addresses found")` (src/consul/consul.go line 11) and
`discovery.ErrNotFound` is `errors.New("no service addresses found")`
(the `discovery` package): equal messages, distinct values. -/
def GoErr.message : GoErr → String
  | .errServicesNotFound => "no service addresses found"
  | .errNotFound => "no service addresses found"
  | .serviceConfigNotDefined => "service configuration not defined"
  | .backend code => "backend error " ++ toString code

namespace Discovery

/-- `discovery.ErrNotFound = errors.New("no service addresses found")`, the
`discovery` package's sentinel. -/
def ErrNotFound : GoErr := .errNotFound

end Discovery

namespace Consul

/-- `consul.ErrServicesNotFound = fmt.Errorf("no service addresses found")`,
the `consul` package's own sentinel (src/consul/consul.go line 11). -/
def ErrServicesNotFound : GoErr := .errServicesNotFound

def default_port : Int := 8500

def default_host : String := "localhost"

def SELF_NAME : String := "consul"

structure ConsulConfig where
  host : String
  port : Int
  user : String := ""
  pass : String := ""
  deriving DecidableEq, Repr

/-- `DefaultConfig` from src/consul/consul.go: localhost:8500, zero-valued
(empty) user and password. -/
def DefaultConfig : ConsulConfig :=
  { host := default_host, port := default_port }

structure ServiceConfig where
  name : String
  host : String
  port : Int
  tags : List String := []
  deriving DecidableEq, Repr

structure HttpBasicAuth where
  username : String
  password : String
  deriving DecidableEq, Repr

/-- The part of the consul client library's `api.Config` that the repository
reads: the HTTP address and the optional basic-auth credentials. -/
structure ApiConfig where
  address : String
  httpAuth : Option HttpBasicAuth
  deriving DecidableEq, Repr

/-- `api.DefaultConfig()` of the consul client library: address
`127.0.0.1:8500`, `HttpAuth` left nil. -/
def apiDefaultConfig : ApiConfig :=
  { address := "127.0.0.1:8500", httpAuth := none }

/-- A consul-backed registry handle; the `api.Client` itself is an opaque
network object, so only the configuration the repository later reads is
kept. -/
structure Registry where
  config : ApiConfig
  deriving DecidableEq, Repr

/-- `NewRegistry`: starts from `api.DefaultConfig()` and, when a configuration
is supplied, overwrites the address with `host:port` and sets basic auth.
`api.NewClient` never fails on these configurations, so its error path is not
modelled. -/
def NewRegistry (config : Option ConsulConfig) : Registry :=
  match config with
  | none => { config := apiDefaultConfig }
  | some c =>
      { config :=
          { address := c.host ++ ":" ++ toString c.port,
            httpAuth := some { username := c.user, password := c.pass } } }

/-- One entry of the consul health query response: the registered service
address and port that `ServiceAddresses` formats as `"host:port"`. -/
structure ServiceEntry where
  address : String
  port : Int
  deriving DecidableEq, Repr

/-- `ServiceAddresses`: the backend response of
`client.Health().Service(serviceName, "", true, nil)` is passed in as the
entry list and the optional error.  On backend error the error is returned
unwrapped; an empty entry list yields `ErrServicesNotFound`; otherwise each
entry is formatted as `"address:port"`. -/
def ServiceAddresses (entries : List ServiceEntry) (healthErr : Option GoErr) :
    Except GoErr (List String) :=
  match healthErr with
  | some err => .error err
  | none =>
      if entries.length = 0 then .error ErrServicesNotFound
      else .ok (entries.map (fun e => e.address ++ ":" ++ toString e.port))

/-- `MakeRegistryAndRegisterService`: a nil consul configuration is replaced
by `DefaultConfig()`; the registry is built; a nil service configuration is an
error; then `registry.Register` runs, whose backend outcome is passed in as
`registerErr`.  The returned pair mirrors Go's `(*Registry, error)`. -/
def MakeRegistryAndRegisterService (registerErr : Option GoErr)
    (instanceID : String) (cfgService : Option ServiceConfig)
    (cfgConsul : Option ConsulConfig) : Option Registry × Option GoErr :=
  let cfg := cfgConsul.getD DefaultConfig
  let registry := NewRegistry (some cfg)
  match cfgService with
  | none => (none, some .serviceConfigNotDefined)
  | some _ =>
      match registerErr with
      | some e => (none, some e)
      | none => (some registry, none)

/-- The chained connection-option setters of the `consul` package, one
constructor per setter with its captured argument.  Durations
(`time.Duration`) are integer nanosecond counts. -/
inductive OptionFunc where
  | withTag (tag : String)
  | withHealthy (healthy : Bool)
  | withWait (wait : Int)
  | withInsecure (insecure : Bool)
  | withNear (near : String)
  | withLimit (limit : Int)
  | withTimeout (timeout : Int)
  | withMaxBackoff (maxbackoff : Int)
  | withToken (token : String)
  | withDC (dc : String)
  | withAllowStale (stale : Bool)
  | withRequireConsistent (required : Bool)
  deriving DecidableEq, Repr

def OPT_NEAR_IP : String := "_ip"

/-- The private `options` struct accumulated by the setters.  The Go fields
`wait`, `timeout` and `maxbackoff` store the formatted string
`duration.String()`; since Go duration formatting is injective, the duration
value itself is stored here and rendered by `goDurationRepr`, which preserves
all equalities of snapshots. -/
structure options where
  limit : Option Int := none
  tag : Option String := none
  healthy : Option String := none
  wait : Option Int := none
  insecure : Option String := none
  near : Option String := none
  timeout : Option Int := none
  maxbackoff : Option Int := none
  token : Option String := none
  dc : Option String := none
  allowstale : Option Bool := none
  requireconsistent : Option Bool := none
  deriving DecidableEq, Repr

/-- Injective stand-in for Go `time.Duration.String()` (e.g. `"2s"`), used
only as a query-parameter value; snapshot equality is unaffected. -/
def goDurationRepr (d : Int) : String := toString d

/-- Applying one setter to the options struct: the returned pair is the
struct state after the call and the returned error.  Each branch mirrors the
corresponding `With*` function body; on a validation error the function
returns before writing any field, so the state is returned unchanged. -/
def applyOption : OptionFunc → options → options × Option String
  | .withTag tag, o =>
      (if tag ≠ "" then { o with tag := some tag } else o, none)
  | .withHealthy healthy, o =>
      (if healthy then { o with healthy := some "true" } else o, none)
  | .withWait wait, o =>
      if wait < 0 then (o, some "wait time cannot be less than zero")
      else (if wait ≠ 0 then { o with wait := some wait } else o, none)
  | .withInsecure insecure, o =>
      (if !insecure then { o with insecure := some "false" } else o, none)
  | .withNear near, o =>
      (if near = OPT_NEAR_IP then { o with near := some OPT_NEAR_IP } else o,
        none)
  | .withLimit limit, o =>
      if limit < 0 then (o, some "limit cannot be less than zero")
      else (if limit ≠ 0 then { o with limit := some limit } else o, none)
  | .withTimeout timeout, o =>
      if timeout < 0 then (o, some "timeout cannot be less than zero")
      else (if timeout ≠ 0 then { o with timeout := some timeout } else o,
        none)
  | .withMaxBackoff maxbackoff, o =>
      if maxbackoff < 0 then (o, some "maxbackoff cannot be less than zero")
      else
        (if maxbackoff ≠ 0 then { o with maxbackoff := some maxbackoff }
         else o, none)
  | .withToken token, o =>
      (if token ≠ "" then { o with token := some token } else o, none)
  | .withDC dc, o =>
      (if dc ≠ "" then { o with dc := some dc } else o, none)
  | .withAllowStale stale, o => ({ o with allowstale := some stale }, none)
  | .withRequireConsistent required, o =>
      ({ o with requireconsistent := some required }, none)

/-- The option-application loop of `targetQueryValues`: applies each setter in
order, aborting at the first error. -/
def applyOptions : List OptionFunc → options → Except String options
  | [], o => .ok o
  | f :: rest, o =>
      match applyOption f o with
      | (_, some e) => .error e
      | (o2, none) => applyOptions rest o2

/-- Serialization of the final snapshot into the url.Values query set, one
`Set` per non-nil field in source order.  `url.Values` is a key-to-value map
and every key is set at most once, so the canonical key order used here
carries the same information. -/
def encodeArgs (opt : options) : List (String × String) :=
  (match opt.tag with | some v => [("tag", v)] | none => []) ++
  (match opt.healthy with | some v => [("healthy", v)] | none => []) ++
  (match opt.wait with | some v => [("wait", goDurationRepr v)] | none => []) ++
  (match opt.insecure with | some v => [("insecure", v)] | none => []) ++
  (match opt.near with | some v => [("near", v)] | none => []) ++
  (match opt.limit with | some v => [("limit", toString v)] | none => []) ++
  (match opt.timeout with | some v => [("timeout", goDurationRepr v)] | none => []) ++
  (match opt.maxbackoff with | some v => [("max-backoff", goDurationRepr v)] | none => []) ++
  (match opt.token with | some v => [("token", v)] | none => []) ++
  (match opt.dc with | some v => [("dc", v)] | none => []) ++
  (match opt.allowstale with | some v => [("allow-stale", toString v)] | none => []) ++
  (match opt.requireconsistent with | some v => [("require-consistent", toString v)] | none => [])

/-- `targetQueryValues`: runs every setter on a zero-valued options struct and
serializes the result; the first setter error aborts the build. -/
def targetQueryValues (opts : List OptionFunc) :
    Except String (List (String × String)) :=
  match applyOptions opts {} with
  | .error e => .error e
  | .ok opt => .ok (encodeArgs opt)

/-- The setter argument's validity constraint from the spec's claims:
durations and limits must be non-negative; setters without a validated
argument are unconstrained. -/
def validArg : OptionFunc → Prop
  | .withWait wait => 0 ≤ wait
  | .withLimit limit => 0 ≤ limit
  | .withTimeout timeout => 0 ≤ timeout
  | .withMaxBackoff maxbackoff => 0 ≤ maxbackoff
  | _ => True

instance : DecidablePred validArg := fun f =>
  match f with
  | .withTag _ => inferInstanceAs (Decidable True)
  | .withHealthy _ => inferInstanceAs (Decidable True)
  | .withWait w => inferInstanceAs (Decidable (0 ≤ w))
  | .withInsecure _ => inferInstanceAs (Decidable True)
  | .withNear _ => inferInstanceAs (Decidable True)
  | .withLimit n => inferInstanceAs (Decidable (0 ≤ n))
  | .withTimeout t => inferInstanceAs (Decidable (0 ≤ t))
  | .withMaxBackoff m => inferInstanceAs (Decidable (0 ≤ m))
  | .withToken _ => inferInstanceAs (Decidable True)
  | .withDC _ => inferInstanceAs (Decidable True)
  | .withAllowStale _ => inferInstanceAs (Decidable True)
  | .withRequireConsistent _ => inferInstanceAs (Decidable True)

/-- The options-struct field a setter targets, numbered; two setters write
the same field exactly when their kinds coincide. -/
def optKind : OptionFunc → Nat
  | .withTag _ => 0
  | .withHealthy _ => 1
  | .withWait _ => 2
  | .withInsecure _ => 3
  | .withNear _ => 4
  | .withLimit _ => 5
  | .withTimeout _ => 6
  | .withMaxBackoff _ => 7
  | .withToken _ => 8
  | .withDC _ => 9
  | .withAllowStale _ => 10
  | .withRequireConsistent _ => 11

/-- The state transformation of one setter call, ignoring the returned
error (the state a setter leaves behind). -/
def stepOpt (o : options) (f : OptionFunc) : options :=
  (applyOption f o).1

/-- Errors of `ServiceConnectGRPC`.  `nilAuthPanic` models the nil-pointer
dereference panic of reading `r.config.HttpAuth.Username` when `HttpAuth` is
nil; `decodeOptions` is the wrapped `"decode options: %w"` error. -/
inductive ConnErr where
  | nilAuthPanic
  | decodeOptions (msg : String)
  deriving DecidableEq, Repr

/-- The connection target handed to `grpc.NewClient`: the `url.URL` fields the
function fills in.  `RawQuery` is `querys.Encode()`; the query set is kept
unencoded, which preserves its information. -/
structure GrpcTarget where
  scheme : String
  user : Option (String × String)
  host : String
  path : String
  query : List (String × String)
  deriving DecidableEq, Repr

/-- `ServiceConnectGRPC`: reads `r.config.HttpAuth.Username` /
`.Password` (panicking when `HttpAuth` is nil, before anything else), builds
the query values (returning the decode-options error on setter failure), then
assembles the `consul://` target for `grpc.NewClient`; the network dial itself
is external, so the built target is the normal-return value. -/
def ServiceConnectGRPC (r : Registry) (serviceName : String)
    (opts : List OptionFunc) : Except ConnErr GrpcTarget :=
  match r.config.httpAuth with
  | none => .error .nilAuthPanic
  | some auth =>
      let userpass :=
        if auth.username ≠ "" ∧ auth.password ≠ "" then
          some (auth.username, auth.password)
        else none
      match targetQueryValues opts with
      | .error e => .error (.decodeOptions e)
      | .ok querys =>
          .ok { scheme := SELF_NAME, user := userpass,
                host := r.config.address, path := serviceName,
                query := querys }

end Consul

namespace Retryer

/-- The message strings put into `Feedback.Message`, one constructor per
format string of the `retryer` package (the formats are injective, so the
structural form carries the same information):
`"retry attempt %d successful"`, `"all attempts used"`,
`"retry attempt %d failed repeat after %s"` (with the delay),
`"trying new make registry and register"`. -/
inductive FbMessage where
  | attemptSuccessful (attempt : Nat)
  | allAttemptsUsed
  | attemptFailedRepeatAfter (attempt : Nat) (delayNs : Int)
  | tryingNewMakeRegistry
  deriving DecidableEq, Repr

/-- `retryer.Feedback`: an optional error plus a message. -/
structure Feedback (E : Type) where
  error : Option E
  message : FbMessage
  deriving DecidableEq, Repr

/-- Two's-complement wrap of a natural number into a signed 64-bit value. -/
def wrap64 (n : Nat) : Int :=
  let m : Nat := n % 2 ^ 64
  if m < 2 ^ 63 then (m : Int) else (m : Int) - 2 ^ 64

/-- `delay := time.Second << uint(attempt)`: one second is 10^9 nanoseconds
and `time.Duration` is a signed 64-bit count, so the shift wraps. -/
def retryDelay (attempt : Nat) : Int :=
  wrap64 (1000000000 <<< attempt)

/-- The possible fates of one run of the retry closure.  `running` records
that the loop is still going after the modelled number of iterations (the Go
loop has no bound of its own). -/
inductive RetryOutcome (R E : Type) where
  | success (reg : Option R)
  | exhausted (reg : Option R) (err : E)
  | cancelled
  | running (nextAttempt : Nat)
  deriving DecidableEq, Repr

/-- The error component of the closure's Go return value: the wrapped
operation's error, or `ctx.Err()` after a cancellation. -/
inductive RetErr (E : Type) where
  | op (e : E)
  | ctxCancelled
  deriving DecidableEq, Repr

/-- The Go `(reg, err)` pair returned in each terminal state: `(reg, nil)` on
success, `(reg, err)` on exhaustion, `(nil, ctx.Err())` on cancellation;
`none` while the loop is still running. -/
def RetryOutcome.retVal {R E : Type} :
    RetryOutcome R E → Option (Option R × Option (RetErr E))
  | .success reg => some (reg, none)
  | .exhausted reg err => some (reg, some (.op err))
  | .cancelled => some (none, some .ctxCancelled)
  | .running _ => none

/-- The body of `retry`'s returned closure.  The wrapped operation is a
function from the attempt number (starting at 1) to its Go `(reg, err)`
result; `cancelAt` names the attempt during whose backoff wait the driving
context is cancelled, if any; `fuel` bounds how many loop iterations are
unrolled.  Each iteration: call the operation; on success emit the success
feedback and return; on failure, if `attempt == max && max != 0` emit the
terminal exhausted feedback and return the last `(reg, err)`; otherwise emit
the failure feedback carrying the error and the computed delay, then either
the context cancellation aborts the wait (returning `(nil, ctx.Err())`) or
the timer fires and the loop continues with `attempt+1`. -/
def retryGo {R E : Type} (op : Nat → Option R × Option E) (max : Nat)
    (cancelAt : Option Nat) :
    Nat → Nat → RetryOutcome R E × List (Feedback E)
  | 0, attempt => (.running attempt, [])
  | fuel + 1, attempt =>
      match (op attempt).2 with
      | none =>
          (.success (op attempt).1,
            [{ error := none, message := .attemptSuccessful attempt }])
      | some err =>
          if attempt = max ∧ max ≠ 0 then
            (.exhausted (op attempt).1 err,
              [{ error := none, message := .allAttemptsUsed }])
          else if cancelAt = some attempt then
            (.cancelled,
              [{ error := some err,
                 message := .attemptFailedRepeatAfter attempt (retryDelay attempt) }])
          else
            ((retryGo op max cancelAt fuel (attempt + 1)).1,
              { error := some err,
                message := .attemptFailedRepeatAfter attempt (retryDelay attempt) } ::
                (retryGo op max cancelAt fuel (attempt + 1)).2)

/-- `retry(function, feedback, maxAttempts...)` applied to its arguments:
`max` is the first variadic value or 0, and the closure starts at attempt
1. -/
def retry {R E : Type} (function : Nat → Option R × Option E)
    (maxAttempts : List Nat) (cancelAt : Option Nat) (fuel : Nat) :
    RetryOutcome R E × List (Feedback E) :=
  retryGo function (maxAttempts.headD 0) cancelAt fuel 1

/-- The fate of the supervisor's `for f := range feedback` drain loop: it
forwards every received event to `logFeedback` and terminates only when the
feedback channel is closed. -/
inductive DrainResult (E : Type) where
  | finished (forwarded : List (Feedback E))
  | blockedForever (forwarded : List (Feedback E))
  deriving DecidableEq, Repr

/-- Draining the feedback channel after the retry task has sent `sent` and
completed: if the channel gets closed during the episode the drain finishes,
otherwise the receive blocks forever with no remaining sender. -/
def drainFeedback {E : Type} (sent : List (Feedback E))
    (closedWithinEpisode : Bool) : DrainResult E :=
  if closedWithinEpisode then .finished sent else .blockedForever sent

/-- Whether `CheckHealthAndReconnect` closes the feedback channel during a
recovery episode.  In src/consul/consul.go the channel is created once,
before the poll loop, and its only close is `defer close(feedback)`, which
runs when `CheckHealthAndReconnect` itself returns — no episode closes it. -/
def feedbackClosedWithinEpisode : Bool := false

/-- What one recovery episode of the supervisor does after the liveness push
failed: `stuck` (blocked forever in the drain), `swapped` (assigned the new
registry handle), or `panicked` with the carried value.  `forwardedLog` is
everything sent to the caller's `logFeedback` channel, starting with the
`"trying new make registry and register"` event. -/
inductive EpisodeResult (R E : Type) where
  | stuck (forwardedLog : List (Feedback E))
  | swapped (newreg : Option R) (forwardedLog : List (Feedback E))
  | panicked (panicValue : E) (forwardedLog : List (Feedback E))
  deriving DecidableEq, Repr

/-- One recovery episode of `CheckHealthAndReconnect`, parameterized by
whether the feedback channel gets closed within the episode: the push error
is forwarded, the retry task's events are drained and forwarded; if the drain
never finishes the supervisor is stuck; otherwise it reads `(newreg, rerr)`
and either swaps the handle (`rerr == nil`) or panics — with `err`, the
original liveness-push error, which is the value the `panic(err)` statement
names. -/
def checkEpisodeWith {R E : Type} (closedWithinEpisode : Bool) (pushErr : E)
    (retryOut : RetryOutcome R E) (retryEvents : List (Feedback E)) :
    EpisodeResult R E :=
  let forwardedLog :=
    { error := some pushErr, message := FbMessage.tryingNewMakeRegistry } ::
      retryEvents
  match drainFeedback retryEvents closedWithinEpisode with
  | .blockedForever _ => .stuck forwardedLog
  | .finished _ =>
      match retryOut.retVal with
      | none => .stuck forwardedLog
      | some (newreg, none) => .swapped newreg forwardedLog
      | some (_, some _) => .panicked pushErr forwardedLog

/-- One recovery episode as the source code behaves: the feedback channel is
never closed within the episode. -/
def checkEpisode {R E : Type} (pushErr : E) (retryOut : RetryOutcome R E)
    (retryEvents : List (Feedback E)) : EpisodeResult R E :=
  checkEpisodeWith feedbackClosedWithinEpisode pushErr retryOut retryEvents

/-- Modelled from the spec: the spec's per-episode channel lifetime ("freshly
created and closed each episode", the close happening when the retry task
completes), which src/consul/consul.go's `CheckHealthAndReconnect` does not
implement.  Used to compare the intended episode outcome with the code's. -/
def checkEpisodeSpecClose {R E : Type} (pushErr : E)
    (retryOut : RetryOutcome R E) (retryEvents : List (Feedback E)) :
    EpisodeResult R E :=
  checkEpisodeWith true pushErr retryOut retryEvents

/-- The operation the supervisor hands to the Retry Driver each episode:
`retryFunc(ctx, instanceID, serviceCfg, nil)` — the consul configuration
argument at the call site is the nil literal.  The backend outcome of the
nested `Register` call at each attempt is passed in as `registerErr`. -/
def episodeRetryOp (registerErr : Nat → Option GoErr) (instanceID : String)
    (serviceCfg : Option Consul.ServiceConfig) :
    Nat → Option Consul.Registry × Option GoErr :=
  fun attempt =>
    Consul.MakeRegistryAndRegisterService (registerErr attempt) instanceID
      serviceCfg none

end Retryer

/-! ## Theorems -/

/-- C1: whenever the wrapped operation fails on an attempt with
`attempt == max` and `max != 0`, the retry driver emits the terminal
"all attempts used" feedback event and returns that attempt's `(reg, err)`;
with `max == 0` it never stops retrying on failure; and with `max = 2` and an
always-failing operation it emits exactly one failure feedback event and one
exhausted event and returns the second call's error. -/
theorem retry_exhaustion_and_unbounded {R E : Type}
    (op : Nat → Option R × Option E) (max fuel attempt : Nat)
    (cancelAt : Option Nat) (e e1 e2 : E) :
    ((op attempt).2 = some e → attempt = max → max ≠ 0 →
      Retryer.retryGo op max cancelAt (fuel + 1) attempt =
        (.exhausted (op attempt).1 e,
          [{ error := none, message := .allAttemptsUsed }])) ∧
    ((∀ n, ((op n).2).isSome = true) →
      (Retryer.retryGo op 0 none fuel attempt).1 = .running (attempt + fuel)) ∧
    ((op 1).2 = some e1 → (op 2).2 = some e2 →
      Retryer.retryGo op 2 none (fuel + 2) 1 =
        (.exhausted (op 2).1 e2,
          [{ error := some e1,
             message := .attemptFailedRepeatAfter 1 (Retryer.retryDelay 1) },
           { error := none, message := .allAttemptsUsed }])) := by
  refine ⟨?_, ?_, ?_⟩
  · intro h ham hm0
    subst ham
    simp [Retryer.retryGo, h, hm0]
  · intro hfail
    induction fuel generalizing attempt with
    | zero => simp [Retryer.retryGo]
    | succ n ih =>
        obtain ⟨e', he'⟩ := Option.isSome_iff_exists.mp (hfail attempt)
        have hrec := ih (attempt + 1)
        simp [Retryer.retryGo, he', hrec]
        omega
  · intro h1 h2
    simp [Retryer.retryGo, h1, h2]

/-- C1 witness: with `max = 2` and the operation that fails on call `n` with
error `n`, the driver emits one failure event and one exhausted event and
returns error 2; with `max = 0` it is still running after 7 iterations. -/
theorem retry_exhaustion_and_unbounded_witness :
    Retryer.retryGo (fun n => ((none : Option Unit), some n)) 2 none 5 1 =
      (.exhausted none 2,
        [{ error := some 1,
           message := .attemptFailedRepeatAfter 1 (Retryer.retryDelay 1) },
         { error := none, message := .allAttemptsUsed }]) ∧
    (Retryer.retryGo (fun n => ((none : Option Unit), some n)) 0 none 7 1).1 =
      .running 8 := by
  constructor
  · exact (retry_exhaustion_and_unbounded (fun n => ((none : Option Unit), some n))
      2 3 1 none 0 1 2).2.2 rfl rfl
  · exact (retry_exhaustion_and_unbounded (fun n => ((none : Option Unit), some n))
      0 7 1 none 0 0 0).2.1 (fun _ => rfl)

/-- C2: with `max = 3` and an operation failing on its first two calls and
succeeding on the third, the driver emits exactly two failure feedback events
(with delays `1 second << 1` and `1 second << 2`) and one success feedback
event reporting attempt 3, and returns the third call's registry handle
immediately; the computed delays are 2s and 4s in nanoseconds. -/
theorem retry_fail_fail_success {R E : Type}
    (op : Nat → Option R × Option E) (fuel : Nat) (e1 e2 : E)
    (h1 : (op 1).2 = some e1) (h2 : (op 2).2 = some e2)
    (h3 : (op 3).2 = none) :
    Retryer.retryGo op 3 none (fuel + 3) 1 =
      (.success (op 3).1,
        [{ error := some e1,
           message := .attemptFailedRepeatAfter 1 (Retryer.retryDelay 1) },
         { error := some e2,
           message := .attemptFailedRepeatAfter 2 (Retryer.retryDelay 2) },
         { error := none, message := .attemptSuccessful 3 }]) ∧
    Retryer.retryDelay 1 = 2000000000 ∧
    Retryer.retryDelay 2 = 4000000000 := by
  refine ⟨?_, by decide, by decide⟩
  simp [Retryer.retryGo, h1, h2, h3]

/-- C2 witness: the operation failing with errors 1 and 2 and then returning
handle 42 yields the two failure events, the success event for attempt 3 and
the third call's handle. -/
theorem retry_fail_fail_success_witness :
    Retryer.retryGo
        (fun n => if n = 3 then (some 42, none) else ((none : Option Nat), some n))
        3 none 6 1 =
      (.success (some 42),
        [{ error := some 1,
           message := .attemptFailedRepeatAfter 1 (Retryer.retryDelay 1) },
         { error := some 2,
           message := .attemptFailedRepeatAfter 2 (Retryer.retryDelay 2) },
         { error := none, message := .attemptSuccessful 3 }]) ∧
    Retryer.retryDelay 1 = 2000000000 ∧
    Retryer.retryDelay 2 = 4000000000 :=
  retry_fail_fail_success
    (fun n => if n = 3 then (some 42, none) else ((none : Option Nat), some n))
    3 1 2 rfl rfl rfl

/-- Where a cancellation during the backoff wait of attempt `a` lands the
retry loop, starting from any attempt `t ≤ a`: the loop returns cancelled and
the emitted events are exactly the failure events of attempts `t..a`. -/
theorem retryGo_cancelled_of {R E : Type} (op : Nat → Option R × Option E)
    (max a : Nat) (errF : Nat → E)
    (hfail : ∀ i, i ≤ a → (op i).2 = some (errF i))
    (hmax : max = 0 ∨ a < max) :
    ∀ fuel t, t ≤ a → a + 1 - t ≤ fuel →
      Retryer.retryGo op max (some a) fuel t =
        (.cancelled,
          (List.range (a + 1 - t)).map (fun k =>
            { error := some (errF (t + k)),
              message := .attemptFailedRepeatAfter (t + k)
                (Retryer.retryDelay (t + k)) })) := by
  intro fuel
  induction fuel with
  | zero => intro t ht hfuel; omega
  | succ n ih =>
      intro t ht _hfuel
      have hf : (op t).2 = some (errF t) := hfail t ht
      have hcond : ¬(t = max ∧ max ≠ 0) := by
        rcases hmax with h0 | hlt
        · simp [h0]
        · intro hc; omega
      by_cases hta : t = a
      · subst hta
        have hr1 : List.range 1 = [0] := rfl
        simp [Retryer.retryGo, hf, hcond, hr1]
      · have hne : ¬((some a : Option Nat) = some t) := by
          simp; omega
        have hrec := ih (t + 1) (by omega) (by omega)
        have harith2 : a + 1 - (t + 1) = a - t := by omega
        rw [harith2] at hrec
        have hsplit : a + 1 - t = (a - t) + 1 := by omega
        have hstep : ∀ k : Nat, t + 1 + k = t + (k + 1) := by omega
        simp [Retryer.retryGo, hf, hcond, hne, hrec, hsplit,
          List.range_succ_eq_map, List.map_map, Function.comp_def, hstep]

/-- C3: when the driving context is cancelled during the backoff wait of
attempt `a` (the operation having failed on attempts 1..`a` without
exhausting the bound), the driver returns immediately in the cancelled state
— whose Go return value is `(nil, ctx.Err())`, a nil handle with the
cancellation error, which is a different value from any operation error — and
the emitted feedback is exactly the failure events of attempts 1..`a`:
nothing is emitted after the cancellation. -/
theorem retry_cancel_during_backoff {R E : Type}
    (op : Nat → Option R × Option E) (max a fuel : Nat) (errF : Nat → E)
    (hfail : ∀ i, i ≤ a → (op i).2 = some (errF i))
    (hmax : max = 0 ∨ a < max) (ha : 1 ≤ a) (hfuel : a ≤ fuel) :
    Retryer.retryGo op max (some a) fuel 1 =
      (.cancelled,
        (List.range a).map (fun k =>
          { error := some (errF (1 + k)),
            message := .attemptFailedRepeatAfter (1 + k)
              (Retryer.retryDelay (1 + k)) })) ∧
    (Retryer.RetryOutcome.cancelled : Retryer.RetryOutcome R E).retVal =
      some (none, some .ctxCancelled) ∧
    (∀ e : E, (Retryer.RetErr.ctxCancelled : Retryer.RetErr E) ≠ .op e) := by
  refine ⟨?_, rfl, fun e h => by cases h⟩
  have h := retryGo_cancelled_of op max a errF hfail hmax fuel 1 ha (by omega)
  have harith : a + 1 - 1 = a := by omega
  rw [harith] at h
  exact h

/-- C3 witness: with the operation failing on every call and the context
cancelled during the wait after attempt 2 (bound 5), the driver returns
cancelled with exactly the two failure events of attempts 1 and 2. -/
theorem retry_cancel_during_backoff_witness :
    Retryer.retryGo (fun n => ((none : Option Unit), some n)) 5 (some 2) 5 1 =
      (.cancelled,
        (List.range 2).map (fun k =>
          { error := some (1 + k),
            message := .attemptFailedRepeatAfter (1 + k)
              (Retryer.retryDelay (1 + k)) })) ∧
    (Retryer.RetryOutcome.cancelled : Retryer.RetryOutcome Unit Nat).retVal =
      some (none, some .ctxCancelled) ∧
    (∀ e : Nat, (Retryer.RetErr.ctxCancelled : Retryer.RetErr Nat) ≠ .op e) :=
  retry_cancel_during_backoff (fun n => ((none : Option Unit), some n)) 5 2 5
    (fun i => i) (fun _ _ => rfl) (Or.inr (by omega)) (by omega) (by omega)

/-- C4 (code bug evidence): a recovery episode whose nested retry exhausts
its single attempt with backend error 9 (the liveness push having failed with
backend error 7).  The retry closure does return the non-nil error, but the
supervisor's drain of the never-closed feedback channel blocks forever, so no
abort happens; and even under the spec's per-episode channel close, the
`panic(err)` statement escalates the original push error 7, not the retry's
last backend error 9. -/
theorem supervisor_exhaustion_not_escalated :
    Retryer.retry
        (Retryer.episodeRetryOp (fun _ => some (GoErr.backend 9)) "instance-1"
          (some { name := "svc", host := "h", port := 1 })) [1] none 1 =
      (.exhausted none (GoErr.backend 9),
        [{ error := none, message := .allAttemptsUsed }]) ∧
    Retryer.checkEpisode (GoErr.backend 7)
        (.exhausted (none : Option Consul.Registry) (GoErr.backend 9))
        [{ error := none, message := .allAttemptsUsed }] =
      .stuck
        [{ error := some (GoErr.backend 7), message := .tryingNewMakeRegistry },
         { error := none, message := .allAttemptsUsed }] ∧
    Retryer.checkEpisodeSpecClose (GoErr.backend 7)
        (.exhausted (none : Option Consul.Registry) (GoErr.backend 9))
        [{ error := none, message := .allAttemptsUsed }] =
      .panicked (GoErr.backend 7)
        [{ error := some (GoErr.backend 7), message := .tryingNewMakeRegistry },
         { error := none, message := .allAttemptsUsed }] ∧
    GoErr.backend 7 ≠ GoErr.backend 9 := by
  refine ⟨by decide, by decide, by decide, by decide⟩

/-- C5 (code bug evidence): a recovery episode whose nested retry succeeds on
its first attempt, producing the default-config registry handle.  The
feedback channel is created once for the whole supervisor and never closed
within an episode (`feedbackClosedWithinEpisode = false` is forced by the
single `defer close(feedback)` at supervisor exit), so the drain loop blocks
forever and the handle swap never executes. -/
theorem supervisor_swap_never_reached :
    Retryer.feedbackClosedWithinEpisode = false ∧
    Retryer.retry
        (Retryer.episodeRetryOp (fun _ => none) "instance-1"
          (some { name := "svc", host := "h", port := 1 })) [2] none 1 =
      (.success (some (Consul.NewRegistry (some Consul.DefaultConfig))),
        [{ error := none, message := .attemptSuccessful 1 }]) ∧
    Retryer.checkEpisode (GoErr.backend 7)
        (.success (some (Consul.NewRegistry (some Consul.DefaultConfig))))
        [{ error := none, message := .attemptSuccessful 1 }] =
      .stuck
        [{ error := some (GoErr.backend 7), message := .tryingNewMakeRegistry },
         { error := none, message := .attemptSuccessful 1 }] := by
  refine ⟨rfl, by decide, by decide⟩

/-- Any successful run of the retry loop returns a handle produced by some
call of the wrapped operation (a call that returned a nil error). -/
theorem retryGo_success_src {R E : Type} (op : Nat → Option R × Option E)
    (max : Nat) (cancelAt : Option Nat) :
    ∀ fuel attempt reg,
      (Retryer.retryGo op max cancelAt fuel attempt).1 = .success reg →
      ∃ n, (op n).1 = reg ∧ (op n).2 = none := by
  intro fuel
  induction fuel with
  | zero => intro attempt reg h; simp [Retryer.retryGo] at h
  | succ k ih =>
      intro attempt reg h
      rcases he : (op attempt).2 with _ | err
      · refine ⟨attempt, ?_, he⟩
        simp [Retryer.retryGo, he] at h
        exact h
      · by_cases hcond : attempt = max ∧ max ≠ 0
        · obtain ⟨ham, hm0⟩ := hcond
          subst ham
          simp [Retryer.retryGo, he, hm0] at h
        · by_cases hc : cancelAt = some attempt
          · simp [Retryer.retryGo, he, hcond, hc] at h
          · simp only [Retryer.retryGo, he, hcond, hc] at h
            exact ih (attempt + 1) reg h

/-- C9: each recovery episode calls the retry closure as
`retryFunc(ctx, instanceID, serviceCfg, nil)` — with a nil consul
configuration — so whenever the episode's rebuild-and-register succeeds, the
rebuilt handle targets the default configuration: address
`localhost:8500` with empty basic-auth credentials, independent of whatever
configuration the originally supplied registry handle had. -/
theorem episode_rebuild_targets_default_config
    (registerErr : Nat → Option GoErr) (instanceID : String)
    (serviceCfg : Option Consul.ServiceConfig) (maxAttempts : List Nat)
    (cancelAt : Option Nat) (fuel : Nat) (reg : Option Consul.Registry)
    (r : Consul.Registry)
    (hsucc : (Retryer.retry
        (Retryer.episodeRetryOp registerErr instanceID serviceCfg)
        maxAttempts cancelAt fuel).1 = .success reg)
    (hr : reg = some r) :
    r.config.address = "localhost:8500" ∧
    r.config.httpAuth = some { username := "", password := "" } := by
  simp only [Retryer.retry] at hsucc
  obtain ⟨n, h1, h2⟩ :=
    retryGo_success_src (Retryer.episodeRetryOp registerErr instanceID serviceCfg)
      (maxAttempts.headD 0) cancelAt fuel 1 reg hsucc
  subst hr
  cases serviceCfg with
  | none =>
      simp [Retryer.episodeRetryOp, Consul.MakeRegistryAndRegisterService] at h2
  | some sc =>
      cases hre : registerErr n with
      | some e =>
          simp [Retryer.episodeRetryOp, Consul.MakeRegistryAndRegisterService,
            hre] at h2
      | none =>
          simp [Retryer.episodeRetryOp, Consul.MakeRegistryAndRegisterService,
            hre] at h1
          rw [← h1]
          exact ⟨by decide, by decide⟩

/-- C9 witness: an episode whose register call succeeds at attempt 1 yields
the default-config handle `localhost:8500` with empty credentials. -/
theorem episode_rebuild_targets_default_config_witness :
    (Retryer.retry
        (Retryer.episodeRetryOp (fun _ => none) "instance-1"
          (some { name := "svc", host := "srv-host", port := 9000 })) [] none 1).1 =
      .success (some (Consul.NewRegistry (some Consul.DefaultConfig))) ∧
    (Consul.NewRegistry (some Consul.DefaultConfig)).config.address =
      "localhost:8500" ∧
    (Consul.NewRegistry (some Consul.DefaultConfig)).config.httpAuth =
      some { username := "", password := "" } := by
  refine ⟨by decide, ?_⟩
  exact episode_rebuild_targets_default_config (fun _ => none) "instance-1"
    (some { name := "svc", host := "srv-host", port := 9000 }) [] none 1
    (some (Consul.NewRegistry (some Consul.DefaultConfig)))
    (Consul.NewRegistry (some Consul.DefaultConfig)) (by decide) rfl

/-- C6 counterexample: for an empty healthy-instance set, `ServiceAddresses`
returns the `consul` package's own sentinel `ErrServicesNotFound`, which is a
different error value from the `discovery` package's shared `ErrNotFound` (Go
sentinel errors compare by identity), so the claim that the returned error is
the single shared NotFound value across the package boundary fails. -/
theorem serviceAddresses_not_shared_sentinel :
    Consul.ServiceAddresses [] none = .error Consul.ErrServicesNotFound ∧
    Consul.ErrServicesNotFound ≠ Discovery.ErrNotFound := by
  refine ⟨rfl, by decide⟩

/-- C6 amended: for every service whose backend query succeeds with an empty
set of healthy instances, `ServiceAddresses` returns an error — namely the
`consul` package's own sentinel `ErrServicesNotFound` — and never an
empty-list success; that sentinel shares its message with, but is a distinct
error value from, the `discovery` package's `ErrNotFound`, so matching
against the `discovery` sentinel does not recognize it. -/
theorem serviceAddresses_empty_is_notfound
    (entries : List Consul.ServiceEntry) (healthErr : Option GoErr) :
    (entries = [] →
      Consul.ServiceAddresses entries none = .error Consul.ErrServicesNotFound) ∧
    Consul.ServiceAddresses entries healthErr ≠ .ok [] ∧
    Consul.ErrServicesNotFound ≠ Discovery.ErrNotFound ∧
    Consul.ErrServicesNotFound.message = Discovery.ErrNotFound.message := by
  refine ⟨?_, ?_, by decide, by decide⟩
  · intro h
    subst h
    simp [Consul.ServiceAddresses]
  · cases healthErr with
    | some e => simp [Consul.ServiceAddresses]
    | none =>
        cases entries with
        | nil => simp [Consul.ServiceAddresses]
        | cons e rest => simp [Consul.ServiceAddresses]

/-- C6 amended witness: at the empty entry list with no backend error, the
query yields the `consul` sentinel and not an empty success. -/
theorem serviceAddresses_empty_is_notfound_witness :
    Consul.ServiceAddresses [] none = .error Consul.ErrServicesNotFound ∧
    Consul.ServiceAddresses [] none ≠ .ok [] :=
  ⟨(serviceAddresses_empty_is_notfound [] none).1 rfl,
   (serviceAddresses_empty_is_notfound [] none).2.1⟩

/-- C8: each negative-argument setter (wait, timeout, max-backoff, limit)
returns its validation error with the options snapshot it was applied to
returned unchanged (no field written before the error), and
`targetQueryValues` — the pure pre-network part of connection building —
aborts with that error, so the failure occurs before any network
interaction. -/
theorem negative_setter_rejected (o : Consul.options)
    (wait timeout maxbackoff limit : Int)
    (hw : wait < 0) (ht : timeout < 0) (hm : maxbackoff < 0)
    (hl : limit < 0) :
    Consul.applyOption (.withWait wait) o =
      (o, some "wait time cannot be less than zero") ∧
    Consul.applyOption (.withTimeout timeout) o =
      (o, some "timeout cannot be less than zero") ∧
    Consul.applyOption (.withMaxBackoff maxbackoff) o =
      (o, some "maxbackoff cannot be less than zero") ∧
    Consul.applyOption (.withLimit limit) o =
      (o, some "limit cannot be less than zero") ∧
    (∀ rest, Consul.targetQueryValues (.withWait wait :: rest) =
      .error "wait time cannot be less than zero") ∧
    (∀ rest, Consul.targetQueryValues (.withLimit limit :: rest) =
      .error "limit cannot be less than zero") := by
  refine ⟨?_, ?_, ?_, ?_, ?_, ?_⟩ <;>
    simp [Consul.applyOption, Consul.targetQueryValues, Consul.applyOptions,
      hw, ht, hm, hl]

/-- C8 witness: at argument -1 each of the four validated setters rejects and
leaves the empty snapshot unchanged, and the query build fails. -/
theorem negative_setter_rejected_witness :
    Consul.applyOption (.withWait (-1)) {} =
      ({}, some "wait time cannot be less than zero") ∧
    Consul.applyOption (.withTimeout (-1)) {} =
      ({}, some "timeout cannot be less than zero") ∧
    Consul.applyOption (.withMaxBackoff (-1)) {} =
      ({}, some "maxbackoff cannot be less than zero") ∧
    Consul.applyOption (.withLimit (-1)) {} =
      ({}, some "limit cannot be less than zero") ∧
    Consul.targetQueryValues [.withWait (-1)] =
      .error "wait time cannot be less than zero" := by
  have h := negative_setter_rejected {} (-1) (-1) (-1) (-1)
    (by norm_num) (by norm_num) (by norm_num) (by norm_num)
  exact ⟨h.1, h.2.1, h.2.2.1, h.2.2.2.1, h.2.2.2.2.1 []⟩

/-- C10: a registry built by `NewRegistry` with a nil configuration keeps the
consul client default config, whose basic-auth field is unset; every
`ServiceConnectGRPC` call on such a registry hits the nil dereference of
`r.config.HttpAuth.Username` and panics before building the connection
target, while a registry built with a non-nil configuration always has the
auth field set, never hits that panic, and with no options reaches the normal
return with the assembled `consul://` target. -/
theorem serviceConnectGRPC_nil_config_panics :
    (Consul.NewRegistry none).config.httpAuth = none ∧
    (∀ s opts, Consul.ServiceConnectGRPC (Consul.NewRegistry none) s opts =
      .error .nilAuthPanic) ∧
    (∀ cfg : Consul.ConsulConfig, ∀ s opts,
      Consul.ServiceConnectGRPC (Consul.NewRegistry (some cfg)) s opts ≠
        .error .nilAuthPanic) ∧
    (∀ cfg : Consul.ConsulConfig, ∀ s,
      Consul.ServiceConnectGRPC (Consul.NewRegistry (some cfg)) s [] =
        .ok { scheme := Consul.SELF_NAME,
              user := if cfg.user ≠ "" ∧ cfg.pass ≠ "" then
                  some (cfg.user, cfg.pass)
                else none,
              host := cfg.host ++ ":" ++ toString cfg.port, path := s,
              query := [] }) := by
  refine ⟨rfl, fun s opts => rfl, ?_, ?_⟩
  · intro cfg s opts h
    cases htq : Consul.targetQueryValues opts with
    | error e =>
        simp [Consul.ServiceConnectGRPC, Consul.NewRegistry, htq] at h
    | ok q =>
        simp [Consul.ServiceConnectGRPC, Consul.NewRegistry, htq] at h
  · intro cfg s
    simp [Consul.ServiceConnectGRPC, Consul.NewRegistry,
      Consul.targetQueryValues, Consul.applyOptions, Consul.encodeArgs]

/-- C7 counterexample: the claim quantifies over every finite list of setters
with valid arguments, but two `WithTag` setters with different tags form such
a list whose two permutations produce different snapshots (the later write
wins), so permutation invariance fails as stated. -/
theorem targetQueryValues_not_perm_invariant :
    ([Consul.OptionFunc.withTag "a", Consul.OptionFunc.withTag "b"] :
        List Consul.OptionFunc).Perm
      [Consul.OptionFunc.withTag "b", Consul.OptionFunc.withTag "a"] ∧
    (∀ f ∈ ([Consul.OptionFunc.withTag "a", Consul.OptionFunc.withTag "b"] :
        List Consul.OptionFunc), Consul.validArg f) ∧
    Consul.targetQueryValues
        [Consul.OptionFunc.withTag "a", Consul.OptionFunc.withTag "b"] ≠
      Consul.targetQueryValues
        [Consul.OptionFunc.withTag "b", Consul.OptionFunc.withTag "a"] := by
  refine ⟨by decide, by decide, ?_⟩
  intro h
  simp [Consul.targetQueryValues, Consul.applyOptions, Consul.applyOption,
    Consul.encodeArgs] at h

/-- A setter whose argument is valid never returns an error. -/
theorem applyOption_snd_eq_none (f : Consul.OptionFunc) (o : Consul.options)
    (h : Consul.validArg f) : (Consul.applyOption f o).2 = none := by
  cases f <;>
    first
      | rfl
      | (rename_i x
         have hx : ¬x < 0 := not_lt.mpr (by simpa [Consul.validArg] using h)
         simp [Consul.applyOption, hx])

/-- Under valid arguments the setter loop never aborts and computes the fold
of the error-free state transformations. -/
theorem applyOptions_eq_foldl (l : List Consul.OptionFunc) :
    ∀ o : Consul.options, (∀ f ∈ l, Consul.validArg f) →
      Consul.applyOptions l o = .ok (l.foldl Consul.stepOpt o) := by
  induction l with
  | nil => intro o _; simp [Consul.applyOptions]
  | cons f rest ih =>
      intro o hv
      have h2 := applyOption_snd_eq_none f o (hv f (by simp))
      rcases happ : Consul.applyOption f o with ⟨o2, e2⟩
      rw [happ] at h2
      simp at h2
      subst h2
      have hstep : Consul.stepOpt o f = o2 := by
        simp [Consul.stepOpt, happ]
      simp only [Consul.applyOptions, happ, List.foldl_cons, hstep]
      exact ih o2 (fun g hg => hv g (by simp [hg]))

set_option maxHeartbeats 2000000 in
/-- Two setters that target different options-struct fields commute as state
transformations. -/
theorem stepOpt_comm (f g : Consul.OptionFunc)
    (h : Consul.optKind f ≠ Consul.optKind g) (o : Consul.options) :
    Consul.stepOpt (Consul.stepOpt o f) g =
      Consul.stepOpt (Consul.stepOpt o g) f := by
  cases f <;> cases g <;>
    first
      | exact absurd rfl h
      | (simp only [Consul.stepOpt, Consul.applyOption]
         repeat' split
         all_goals rfl)

/-- C7 amended: for every finite list of setters with valid (non-negative)
duration and limit arguments in which no two setters target the same option
field, applying the setters in any permutation yields the same final
serialized query-parameter snapshot.  (The restriction to pairwise-distinct
fields is forced by the counterexample of two `WithTag` setters.) -/
theorem targetQueryValues_perm_invariant (l l' : List Consul.OptionFunc)
    (hdist : l.Pairwise (fun f g => Consul.optKind f ≠ Consul.optKind g))
    (hvalid : ∀ f ∈ l, Consul.validArg f) (hperm : l.Perm l') :
    Consul.targetQueryValues l = Consul.targetQueryValues l' := by
  have hvalid' : ∀ f ∈ l', Consul.validArg f :=
    fun f hf => hvalid f (hperm.mem_iff.mpr hf)
  have hcomm : ∀ x ∈ l, ∀ y ∈ l, ∀ z : Consul.options,
      Consul.stepOpt (Consul.stepOpt z x) y =
        Consul.stepOpt (Consul.stepOpt z y) x := by
    intro x hx y hy z
    by_cases hxy : x = y
    · subst hxy; rfl
    · have hsym : Symmetric (fun f g : Consul.OptionFunc =>
          Consul.optKind f ≠ Consul.optKind g) := fun _ _ hab => hab.symm
      have hk := hdist.forall hsym hx hy hxy
      exact stepOpt_comm x y hk z
  have hfold := hperm.foldl_eq' hcomm ({} : Consul.options)
  rw [Consul.targetQueryValues, Consul.targetQueryValues,
    applyOptions_eq_foldl l {} hvalid, applyOptions_eq_foldl l' {} hvalid',
    hfold]

/-- C7 amended witness: a tag setter and a limit setter (distinct fields,
valid arguments) produce the same snapshot in either order. -/
theorem targetQueryValues_perm_invariant_witness :
    Consul.targetQueryValues
        [Consul.OptionFunc.withTag "x", Consul.OptionFunc.withLimit 5] =
      Consul.targetQueryValues
        [Consul.OptionFunc.withLimit 5, Consul.OptionFunc.withTag "x"] :=
  targetQueryValues_perm_invariant
    [Consul.OptionFunc.withTag "x", Consul.OptionFunc.withLimit 5]
    [Consul.OptionFunc.withLimit 5, Consul.OptionFunc.withTag "x"]
    (by decide) (by decide) (by decide)
